import Mathlib

/-!
Shallow embedding of `src/app.py`, the AI Excel Interviewer.

The program is a Streamlit script that is re-executed ("rerun") on every user
interaction; session state (`st.session_state`) survives across reruns.  The
embedding models one rerun as a pure function on a `Session` record.  The two
Gemini calls and `random.sample` are external effects; they are modelled as
explicit oracle parameters:
  * the evaluator model call is an oracle `String → Except String EvaluationResult`
    mapping the formatted prompt to either the parsed JSON (`.ok`) or the
    exception detail string (`.error`, covering transport errors and
    `json.loads` failures alike, as the single `try/except` in the source does);
  * the report model call is an oracle `String → Except String String`;
  * `random.sample(population, k)` is modelled by a list of chosen indices
    into the population, with the stdlib contract (k distinct in-range
    indices) stated as the predicate `SampleSpec`.
Machine floats appear only as the literal `0.75`, the average (a quotient of
small integers) and the comparisons with `0` and `3.0`; over these values
IEEE double arithmetic is exact for every comparison performed (the literals
`0.75`, `0` and `3.0` are exactly representable and Python computes
`sum/len` as a correctly rounded quotient, so `avg > 0` and `avg < 3.0`
agree with the rational comparisons), hence scores are embedded as `ℤ` and
the average as `ℚ`.
-/

namespace AIInterviewer

/-- Parsed evaluator JSON: a numeric `score` and a `justification`
(`src/app.py` lines 26, 83, 86). -/
structure EvaluationResult where
  score : ℤ
  justification : String
deriving Repr, DecidableEq

/-- One entry of the question bank / sampled list: a dict with keys
`question`, and optional `rubric` and `hint` (read with `.get` and a
default at lines 186, 190). -/
structure QuestionRecord where
  question : String
  rubric : Option String
  hint : Option String
deriving Repr, DecidableEq

/-- One accepted turn as appended at lines 197-199. -/
structure TurnRecord where
  question : String
  answer : String
  evaluation : EvaluationResult
deriving Repr, DecidableEq

/-- The `stage` values `'welcome'`, `'interviewing'`, `'interview_finished'`. -/
inductive Stage where
  | welcome
  | interviewing
  | finished
deriving Repr, DecidableEq

/-- A chat message (`{"role": ..., "content": ...}`). -/
structure Message where
  role : String
  content : String
deriving Repr, DecidableEq

/-- The persistent `st.session_state` fields (lines 110-135, 162-163). -/
structure Session where
  stage : Stage
  q_index : ℕ
  results : List TurnRecord
  retry_attempt : Bool
  interview_questions : List QuestionRecord
  messages : List Message
  report : Option String
deriving Repr, DecidableEq

/-- The `EVALUATION_PROMPT_TEMPLATE` (lines 24-44) after `.format`. -/
def EVALUATION_PROMPT_TEMPLATE_format (question answer rubric : String) : String :=
  s!"\nYou are an expert Excel Interview Evaluator. Your task is to analyze a candidate\x27s answer to an interview question.\nYou must provide a numeric score from 1 to 5 and a brief justification for your score based on the provided rubric.\nYour entire output must be a single, valid JSON object.\n\n**Rubric:**\n- 5: Excellent. The answer is accurate, complete, and demonstrates deep understanding.\n- 4: Good. The answer is mostly correct but may have minor inaccuracies.\n- 3: Satisfactory. The answer demonstrates a basic understanding but is incomplete or contains notable errors.\n- 2: Poor. The answer is largely incorrect and shows a fundamental misunderstanding.\n- 1: Very Poor. The answer is completely wrong or irrelevant.\n\n**Interview Question:**\n{question}\n\n**Candidate\x27s Answer:**\n{answer}\n\n**Evaluation Rubric for this question:**\n{rubric}\n"

/-- The `FINAL_REPORT_PROMPT_TEMPLATE` (lines 46-58) after `.format`. -/
def FINAL_REPORT_PROMPT_TEMPLATE_format (t : String) : String :=
  s!"\nYou are a helpful and constructive hiring manager, specializing in data roles.\nYour task is to generate a final performance summary for a candidate who has just completed an Excel skills interview in Markdown format.\n\nBased on the full transcript, provide a report with these sections:\n1.  **Overall Summary:** A brief, 2-3 sentence paragraph summarizing the candidate\x27s performance.\n2.  **Strengths:** 2-3 bullet points highlighting what the candidate did well.\n3.  **Areas for Improvement:** 2-3 bullet points with constructive feedback.\n4.  **Final Recommendation:** A concluding sentence (e.g., \"Recommend for next round,\" \"Shows promise but needs more practice,\" \"Not a strong fit at this time\").\n\n**Interview Transcript and Evaluations:**\n{t}\n"

/-- `evaluate_answer` (lines 76-86): formats the prompt, calls the model and
parses the JSON; on any exception returns the score-0 sentinel with the
error detail in the justification. -/
def evaluate_answer (oracle : String → Except String EvaluationResult)
    (question answer rubric : String) : EvaluationResult :=
  match oracle (EVALUATION_PROMPT_TEMPLATE_format question answer rubric) with
  | Except.ok r => r
  | Except.error e => { score := 0, justification := s!"Error during evaluation. Details: {e}" }

/-- One block of the transcript built in `generate_final_report`
(lines 91-95); `i` is the 0-based enumeration index. -/
def turn_block (i : ℕ) (res : TurnRecord) : String :=
  let n := i + 1
  let q := res.question
  let a := res.answer
  let sc := res.evaluation.score
  let j := res.evaluation.justification
  s!"**Question {n}:** {q}\n**Candidate\x27s Answer:** {a}\n**Score:** {sc}/5\n**Justification:** {j}\n\n---\n\n"

/-- The transcript accumulated over `enumerate(results)` (lines 90-95). -/
def transcript (results : List TurnRecord) : String :=
  String.join (results.enum.map fun p => turn_block p.1 p.2)

/-- `generate_final_report` (lines 88-104): formats the transcript prompt,
calls the model; on any exception returns the fixed fallback text. -/
def generate_final_report (report_oracle : String → Except String String)
    (results : List TurnRecord) : String :=
  match report_oracle (FINAL_REPORT_PROMPT_TEMPLATE_format (transcript results)) with
  | Except.ok text => text
  | Except.error _ => "Could not generate the final report due to an error."

/-- `average_score` (lines 142-145): 0 unless `results` is non-empty, else
`sum(scores) / len(results)` (Python float division, exact here; see the
file header). -/
def average_score (results : List TurnRecord) : ℚ :=
  if results.isEmpty then 0
  else (((results.map fun r => r.evaluation.score).sum : ℤ) : ℚ) / (results.length : ℚ)

/-- `seventy_five_percent_mark = math.ceil(total_questions * 0.75)` (line 202);
the float product `total * 0.75` is exact. -/
def seventy_five_percent_mark (total : ℕ) : ℕ :=
  ⌈(total : ℚ) * (0.75 : ℚ)⌉₊

/-- `INTERVIEW_LENGTH = 3` (line 116). -/
def INTERVIEW_LENGTH : ℕ := 3

/-- The initial assistant greeting (lines 124-135). -/
def welcome_message (n : ℕ) : String :=
  s!"Hello! I\x27m your adaptive AI interviewer.\n\n**Here’s how this will work:**\n1.  I will ask you a series of questions to assess your Excel skills.\n2.  If an answer isn\x27t quite right, I may give you a hint and a chance to try again.\n3.  The interview will adapt based on your performance and may end early if a clear skill level is determined.\n\nThis session will have up to **{n} questions**. Ready? Type **\x27start\x27**.\n"

/-- `random.sample(full_question_list, k)` (line 120), modelled by the list
of chosen indices into the population. -/
def random_sample (l : List QuestionRecord) (idxs : List ℕ) : List QuestionRecord :=
  idxs.filterMap fun i => l.get? i

/-- Contract of Python `random.sample(population, k)`: it picks `k` distinct
in-range indices of the population (sampling without replacement). -/
def SampleSpec (n k : ℕ) (idxs : List ℕ) : Prop :=
  idxs.length = k ∧ idxs.Nodup ∧ ∀ i ∈ idxs, i < n

/-- Session initialisation (lines 110-135): the branch `if 'stage' not in
st.session_state`. -/
def init_session (full_question_list : List QuestionRecord) (idxs : List ℕ) : Session :=
  let qs := if INTERVIEW_LENGTH < full_question_list.length
            then random_sample full_question_list idxs
            else full_question_list
  { stage := Stage.welcome
    q_index := 0
    results := []
    retry_attempt := false
    interview_questions := qs
    messages := [⟨"assistant", welcome_message qs.length⟩]
    report := none }

/-- The default `QuestionRecord` handed to `List.getD`; within the state
invariant every index used by the program is in range, so this default is
never observed (out of range the Python source would raise `IndexError`). -/
def default_question : QuestionRecord :=
  { question := "", rubric := none, hint := none }

/-- `current_q_data = st.session_state.interview_questions[st.session_state.q_index]`
(line 183). -/
def current_q_data (s : Session) : QuestionRecord :=
  s.interview_questions.getD s.q_index default_question

/-- The generic fallback hint (line 190). -/
def GENERIC_HINT : String := "Let\x27s think about that from another angle."

/-- The retry message (line 191). -/
def hint_response (hint : String) : String :=
  s!"That\x27s not quite what I was looking for. Here\x27s a hint: *{hint}* \n\nWhy don\x27t you try answering that question again?"

/-- The early-stop closing message (line 205). -/
def EARLY_STOP_MESSAGE : String :=
  "Thank you for your time. Based on the responses so far, I have enough information to complete the assessment. I will now generate your performance report."

/-- The next-question message (line 213). -/
def next_question_response (next_question : String) : String :=
  s!"Thank you. Here is the next question:\n\n{next_question}"

/-- The natural-completion closing message (line 219). -/
def FINAL_QUESTION_MESSAGE : String :=
  "Thank you, that was the final question. Please wait a moment while I generate your performance report."

/-- Substring containment on character lists: `contains_sub pat l` is true
iff `pat` occurs contiguously in `l` (Python `pat in l`). -/
def contains_sub (pat : List Char) : List Char → Bool
  | [] => pat.isEmpty
  | c :: cs => pat.isPrefixOf (c :: cs) || contains_sub pat cs

/-- Python `'start' in prompt.lower()` (line 175): case-insensitive substring
containment.  Lowercasing is per-character (`Char.toLower` agrees with
Python `str.lower` on ASCII, which is all the token test needs). -/
def contains_start (prompt : String) : Prop :=
  contains_sub "start".data (prompt.data.map Char.toLower) = true

instance (prompt : String) : Decidable (contains_start prompt) := by
  unfold contains_start
  infer_instance

/-- One processed `st.chat_input` submission (lines 169-223).  Crucially,
`total_questions` (line 138) and `average_score` (lines 142-145) were
computed at the top of the script run, i.e. from the state as it was BEFORE
this submission mutates it; the early-stop test at line 203 therefore reads
the average over the results excluding the turn just accepted.  The
`finished` stage never reaches this code because line 167 calls `st.stop()`
before the input widget; the identity in that branch is dead code kept for
totality. -/
def processInput (s0 : Session) (prompt : String)
    (oracle : String → Except String EvaluationResult) : Session :=
  let total_questions := s0.interview_questions.length
  let avg := average_score s0.results
  let s1 : Session := { s0 with messages := s0.messages ++ [⟨"user", prompt⟩] }
  match s0.stage with
  | Stage.welcome =>
      if contains_start prompt then
        let first_question := (s1.interview_questions.getD 0 default_question).question
        { s1 with stage := Stage.interviewing
                  messages := s1.messages ++ [⟨"assistant", first_question⟩] }
      else s1
  | Stage.interviewing =>
      let q := current_q_data s0
      let evaluation := evaluate_answer oracle q.question prompt (q.rubric.getD "")
      if evaluation.score < 3 ∧ s0.retry_attempt = false then
        { s1 with retry_attempt := true
                  messages := s1.messages ++
                    [⟨"assistant", hint_response (q.hint.getD GENERIC_HINT)⟩] }
      else
        let s2 : Session :=
          { s1 with retry_attempt := false
                    results := s1.results ++ [⟨q.question, prompt, evaluation⟩]
                    q_index := s1.q_index + 1 }
        if seventy_five_percent_mark total_questions ≤ s2.q_index ∧ 0 < avg ∧ avg < 3 then
          { s2 with stage := Stage.finished
                    messages := s2.messages ++ [⟨"assistant", EARLY_STOP_MESSAGE⟩] }
        else if s2.q_index < total_questions then
          { s2 with messages := s2.messages ++
              [⟨"assistant", next_question_response
                  ((s2.interview_questions.getD s2.q_index default_question).question)⟩] }
        else
          { s2 with stage := Stage.finished
                    messages := s2.messages ++ [⟨"assistant", FINAL_QUESTION_MESSAGE⟩] }
  | Stage.finished => s0

/-- One full script rerun (lines 106-223): in the `finished` stage the report
block (lines 160-167) runs and `st.stop()` prevents any input handling;
otherwise a submitted input (if any) is processed. -/
def rerun (s : Session) (input : Option String)
    (oracle : String → Except String EvaluationResult)
    (report_oracle : String → Except String String) : Session :=
  if s.stage = Stage.finished then
    match s.report with
    | none => { s with report := some (generate_final_report report_oracle s.results) }
    | some _ => s
  else
    match input with
    | none => s
    | some prompt => processInput s prompt oracle

/-! ## Concrete fixtures used by witnesses and counterexamples -/

/-- A sample bank question with both a rubric and a hint. -/
def qA : QuestionRecord :=
  ⟨"What does VLOOKUP do?", some "Mentions searching a table.", some "Think about searching a column."⟩

/-- A sample bank question with a rubric and no hint. -/
def qB : QuestionRecord :=
  ⟨"Explain pivot tables.", some "Summarising data.", none⟩

/-- A sample bank question with a hint and no rubric. -/
def qC : QuestionRecord :=
  ⟨"What does INDEX do?", none, some "Think positions."⟩

/-- A sample bank question with neither rubric nor hint. -/
def qD : QuestionRecord :=
  ⟨"Describe conditional formatting.", none, none⟩

/-! ## Shared structural lemmas about the two Interviewing branches -/

/-- Retry branch of the Interviewing step (lines 188-194), as a state equation. -/
theorem processInput_retry_eq (s : Session) (p : String)
    (o : String → Except String EvaluationResult)
    (h : s.stage = Stage.interviewing)
    (hr : s.retry_attempt = false)
    (h1 : (evaluate_answer o (current_q_data s).question p ((current_q_data s).rubric.getD "")).score < 3) :
    processInput s p o =
      { s with retry_attempt := true
               messages := s.messages ++ [⟨"user", p⟩,
                 ⟨"assistant", hint_response ((current_q_data s).hint.getD GENERIC_HINT)⟩] } := by
  simp only [processInput, h]
  rw [if_pos ⟨h1, hr⟩]
  simp

/-- Acceptance branch of the Interviewing step (lines 195-223): field values
common to its three sub-branches. -/
theorem processInput_accept_fields (s : Session) (p : String)
    (o : String → Except String EvaluationResult)
    (h : s.stage = Stage.interviewing)
    (hacc : ¬ ((evaluate_answer o (current_q_data s).question p ((current_q_data s).rubric.getD "")).score < 3 ∧
      s.retry_attempt = false)) :
    (processInput s p o).q_index = s.q_index + 1 ∧
    (processInput s p o).results = s.results ++ [⟨(current_q_data s).question, p,
      evaluate_answer o (current_q_data s).question p ((current_q_data s).rubric.getD "")⟩] ∧
    (processInput s p o).retry_attempt = false ∧
    (processInput s p o).interview_questions = s.interview_questions := by
  simp only [processInput, h]
  rw [if_neg hacc]
  split
  · simp
  · split <;> simp

/-! ## Claim theorems -/

/-- C7: in Welcome, an input containing "start" (case-insensitively) moves to
Interviewing and emits the first sampled question, with `q_index` still 0; any
other input only records the user message and mutates nothing else. -/
theorem welcome_transition (s : Session) (prompt : String)
    (oracle : String → Except String EvaluationResult)
    (h : s.stage = Stage.welcome) (h0 : s.q_index = 0) :
    (contains_start prompt →
      processInput s prompt oracle =
        { s with stage := Stage.interviewing
                 messages := s.messages ++ [⟨"user", prompt⟩,
                   ⟨"assistant", (s.interview_questions.getD 0 default_question).question⟩] }) ∧
    (¬ contains_start prompt →
      processInput s prompt oracle = { s with messages := s.messages ++ [⟨"user", prompt⟩] }) ∧
    (processInput s prompt oracle).q_index = 0 := by
  refine ⟨fun hc => ?_, fun hc => ?_, ?_⟩
  · simp [processInput, h, hc]
  · simp [processInput, h, hc]
  · by_cases hc : contains_start prompt <;> simp [processInput, h, hc, h0]

/-- Session used by the C7 witness. -/
def w7_session : Session :=
  { stage := Stage.welcome, q_index := 0, results := [], retry_attempt := false,
    interview_questions := [qA, qB, qC], messages := [], report := none }

/-- Witness for C7 at a concrete Welcome session and the input "Ok, START". -/
theorem welcome_transition_witness :
    w7_session.stage = Stage.welcome ∧ w7_session.q_index = 0 ∧ contains_start "Ok, START" ∧
    processInput w7_session "Ok, START" (fun _ => Except.error "down") =
      { w7_session with stage := Stage.interviewing
                        messages := w7_session.messages ++ [⟨"user", "Ok, START"⟩,
                          ⟨"assistant", (w7_session.interview_questions.getD 0 default_question).question⟩] } :=
  ⟨rfl, rfl, by decide,
    (welcome_transition w7_session "Ok, START" (fun _ => Except.error "down") rfl rfl).1 (by decide)⟩

/-- C8: Finished is terminal — a rerun in the Finished stage stays Finished,
the result does not depend on the submitted input at all, and every session
field except the (render-time) report cache is unchanged. -/
theorem finished_terminal (s : Session) (input input2 : Option String)
    (oracle : String → Except String EvaluationResult)
    (report_oracle : String → Except String String)
    (h : s.stage = Stage.finished) :
    (rerun s input oracle report_oracle).stage = Stage.finished ∧
    rerun s input oracle report_oracle = rerun s input2 oracle report_oracle ∧
    (rerun s input oracle report_oracle).q_index = s.q_index ∧
    (rerun s input oracle report_oracle).results = s.results ∧
    (rerun s input oracle report_oracle).messages = s.messages ∧
    (rerun s input oracle report_oracle).retry_attempt = s.retry_attempt ∧
    (rerun s input oracle report_oracle).interview_questions = s.interview_questions := by
  cases hr : s.report <;> simp [rerun, h, hr]

/-- Session used by the C8 witness. -/
def f8_session : Session :=
  { stage := Stage.finished, q_index := 2,
    results := [⟨"q1", "a1", ⟨4, "good"⟩⟩, ⟨"q2", "a2", ⟨2, "weak"⟩⟩],
    retry_attempt := false, interview_questions := [qA, qB], messages := [],
    report := some "cached report" }

/-- Witness for C8 at a concrete Finished session with further input. -/
theorem finished_terminal_witness :
    f8_session.stage = Stage.finished ∧
    ((rerun f8_session (some "hello again") (fun _ => Except.error "x") (fun _ => Except.ok "new")).stage = Stage.finished ∧
     rerun f8_session (some "hello again") (fun _ => Except.error "x") (fun _ => Except.ok "new") =
       rerun f8_session none (fun _ => Except.error "x") (fun _ => Except.ok "new") ∧
     (rerun f8_session (some "hello again") (fun _ => Except.error "x") (fun _ => Except.ok "new")).q_index = f8_session.q_index ∧
     (rerun f8_session (some "hello again") (fun _ => Except.error "x") (fun _ => Except.ok "new")).results = f8_session.results ∧
     (rerun f8_session (some "hello again") (fun _ => Except.error "x") (fun _ => Except.ok "new")).messages = f8_session.messages ∧
     (rerun f8_session (some "hello again") (fun _ => Except.error "x") (fun _ => Except.ok "new")).retry_attempt = f8_session.retry_attempt ∧
     (rerun f8_session (some "hello again") (fun _ => Except.error "x") (fun _ => Except.ok "new")).interview_questions = f8_session.interview_questions) :=
  ⟨rfl, finished_terminal f8_session (some "hello again") none (fun _ => Except.error "x") (fun _ => Except.ok "new") rfl⟩

/-- C6: on the first Finished-stage render the report is generated from the
full ordered results sequence; once cached, any later rerun — whatever its
input and whatever the generator would now return — leaves it untouched. -/
theorem report_generated_once (s : Session) (input : Option String)
    (oracle : String → Except String EvaluationResult)
    (g : String → Except String String)
    (h : s.stage = Stage.finished) :
    (s.report = none →
      rerun s input oracle g = { s with report := some (generate_final_report g s.results) }) ∧
    (∀ r, s.report = some r → ∀ g2, (rerun s input oracle g2).report = some r) ∧
    (∀ input2 oracle2 g3,
      (rerun (rerun s input oracle g) input2 oracle2 g3).report =
        (rerun s input oracle g).report) := by
  refine ⟨fun hr => ?_, fun r hr g2 => ?_, fun input2 oracle2 g3 => ?_⟩
  · simp [rerun, h, hr]
  · simp [rerun, h, hr]
  · cases hr : s.report <;> simp [rerun, h, hr]

/-- Session used by the C6 witness. -/
def f6_session : Session :=
  { stage := Stage.finished, q_index := 1, results := [⟨"q1", "a1", ⟨5, "great"⟩⟩],
    retry_attempt := false, interview_questions := [qA], messages := [], report := none }

/-- Witness for C6: the first Finished render caches the generated report. -/
theorem report_generated_once_witness :
    f6_session.stage = Stage.finished ∧ f6_session.report = none ∧
    rerun f6_session none (fun _ => Except.error "x") (fun _ => Except.ok "narrative") =
      { f6_session with report := some (generate_final_report (fun _ => Except.ok "narrative") f6_session.results) } :=
  ⟨rfl, rfl,
    (report_generated_once f6_session none (fun _ => Except.error "x") (fun _ => Except.ok "narrative") rfl).1 rfl⟩

/-- C2: a low score (< 3) with no pending retry sets the retry flag, emits the
hint message (configured hint or generic fallback) and leaves `q_index`,
`results` and the stage untouched; a second consecutive low answer to the same
question is then accepted, advancing `q_index` by exactly one. -/
theorem retry_policy (s : Session) (p1 p2 : String)
    (o1 o2 : String → Except String EvaluationResult)
    (h : s.stage = Stage.interviewing)
    (hr : s.retry_attempt = false)
    (h1 : (evaluate_answer o1 (current_q_data s).question p1 ((current_q_data s).rubric.getD "")).score < 3) :
    (processInput s p1 o1).retry_attempt = true ∧
    (processInput s p1 o1).q_index = s.q_index ∧
    (processInput s p1 o1).results = s.results ∧
    (processInput s p1 o1).stage = Stage.interviewing ∧
    (processInput s p1 o1).messages = s.messages ++ [⟨"user", p1⟩,
      ⟨"assistant", hint_response ((current_q_data s).hint.getD GENERIC_HINT)⟩] ∧
    ((evaluate_answer o2 (current_q_data s).question p2 ((current_q_data s).rubric.getD "")).score < 3 →
      (processInput (processInput s p1 o1) p2 o2).q_index = s.q_index + 1 ∧
      (processInput (processInput s p1 o1) p2 o2).results =
        s.results ++ [⟨(current_q_data s).question, p2,
          evaluate_answer o2 (current_q_data s).question p2 ((current_q_data s).rubric.getD "")⟩]) := by
  have key := processInput_retry_eq s p1 o1 h hr h1
  have hq : current_q_data (processInput s p1 o1) = current_q_data s := by
    rw [key] ; simp [current_q_data]
  refine ⟨by rw [key], by rw [key], by rw [key], by rw [key] ; exact h, by rw [key], fun h2 => ?_⟩
  have hstage : (processInput s p1 o1).stage = Stage.interviewing := by rw [key] ; exact h
  have hacc : ¬ ((evaluate_answer o2 (current_q_data (processInput s p1 o1)).question p2
      ((current_q_data (processInput s p1 o1)).rubric.getD "")).score < 3 ∧
      (processInput s p1 o1).retry_attempt = false) := by
    rw [key] ; simp
  obtain ⟨ha1, ha2, -, -⟩ := processInput_accept_fields (processInput s p1 o1) p2 o2 hstage hacc
  constructor
  · rw [ha1, key]
  · rw [ha2, hq, key]

/-- Session used by the C2 witness. -/
def r2_session : Session :=
  { stage := Stage.interviewing, q_index := 0, results := [], retry_attempt := false,
    interview_questions := [qA, qB, qC], messages := [], report := none }

/-- Witness for C2: two consecutive low answers to the same first question. -/
theorem retry_policy_witness :
    r2_session.stage = Stage.interviewing ∧ r2_session.retry_attempt = false ∧
    (evaluate_answer (fun _ => Except.ok ⟨2, "poor"⟩) (current_q_data r2_session).question "guess one"
      ((current_q_data r2_session).rubric.getD "")).score < 3 ∧
    ((processInput r2_session "guess one" (fun _ => Except.ok ⟨2, "poor"⟩)).retry_attempt = true ∧
     (processInput r2_session "guess one" (fun _ => Except.ok ⟨2, "poor"⟩)).q_index = r2_session.q_index ∧
     (processInput r2_session "guess one" (fun _ => Except.ok ⟨2, "poor"⟩)).results = r2_session.results ∧
     (processInput r2_session "guess one" (fun _ => Except.ok ⟨2, "poor"⟩)).stage = Stage.interviewing ∧
     (processInput r2_session "guess one" (fun _ => Except.ok ⟨2, "poor"⟩)).messages =
       r2_session.messages ++ [⟨"user", "guess one"⟩,
         ⟨"assistant", hint_response ((current_q_data r2_session).hint.getD GENERIC_HINT)⟩] ∧
     ((evaluate_answer (fun _ => Except.ok ⟨1, "still poor"⟩) (current_q_data r2_session).question "guess two"
        ((current_q_data r2_session).rubric.getD "")).score < 3 →
      (processInput (processInput r2_session "guess one" (fun _ => Except.ok ⟨2, "poor"⟩)) "guess two"
        (fun _ => Except.ok ⟨1, "still poor"⟩)).q_index = r2_session.q_index + 1 ∧
      (processInput (processInput r2_session "guess one" (fun _ => Except.ok ⟨2, "poor"⟩)) "guess two"
        (fun _ => Except.ok ⟨1, "still poor"⟩)).results =
        r2_session.results ++ [⟨(current_q_data r2_session).question, "guess two",
          evaluate_answer (fun _ => Except.ok ⟨1, "still poor"⟩) (current_q_data r2_session).question "guess two"
            ((current_q_data r2_session).rubric.getD "")⟩])) :=
  ⟨rfl, rfl, by decide,
    retry_policy r2_session "guess one" "guess two"
      (fun _ => Except.ok ⟨2, "poor"⟩) (fun _ => Except.ok ⟨1, "still poor"⟩) rfl rfl (by decide)⟩

/-- C5: any evaluator failure yields the score-0 sentinel result with the
error detail as justification; such a result enters the running average like
any score, and the retry/accept logic treats it as a low score — one retry if
none is pending, acceptance (with the sentinel recorded) otherwise. -/
theorem evaluator_failure_sentinel
    (e q a r j p : String) (rs : List TurnRecord) (s : Session)
    (h : s.stage = Stage.interviewing) :
    evaluate_answer (fun _ => Except.error e) q a r =
      { score := 0, justification := "Error during evaluation. Details: " ++ e } ∧
    average_score (rs ++ [⟨q, a, ⟨0, j⟩⟩]) =
      (((rs.map fun t => t.evaluation.score).sum : ℤ) : ℚ) / ((rs.length : ℚ) + 1) ∧
    (s.retry_attempt = false →
      (processInput s p (fun _ => Except.error e)).retry_attempt = true ∧
      (processInput s p (fun _ => Except.error e)).results = s.results ∧
      (processInput s p (fun _ => Except.error e)).q_index = s.q_index ∧
      (processInput s p (fun _ => Except.error e)).stage = Stage.interviewing) ∧
    (s.retry_attempt = true →
      (processInput s p (fun _ => Except.error e)).q_index = s.q_index + 1 ∧
      (processInput s p (fun _ => Except.error e)).results =
        s.results ++ [⟨(current_q_data s).question, p,
          ⟨0, "Error during evaluation. Details: " ++ e⟩⟩]) := by
  have hsent : ∀ q' a' r', evaluate_answer (fun _ => Except.error e) q' a' r' =
      { score := 0, justification := "Error during evaluation. Details: " ++ e } := by
    intro q' a' r'
    have hstr : "Error during evaluation. Details: " ++ e ++ "" =
        "Error during evaluation. Details: " ++ e := String.append_empty _
    calc evaluate_answer (fun _ => Except.error e) q' a' r'
        = { score := 0, justification := "Error during evaluation. Details: " ++ e ++ "" } := rfl
      _ = { score := 0, justification := "Error during evaluation. Details: " ++ e } := by rw [hstr]
  refine ⟨hsent q a r, ?_, fun hr => ?_, fun hr => ?_⟩
  · simp [average_score]
  · have key := processInput_retry_eq s p (fun _ => Except.error e) h hr
      (by rw [hsent] ; norm_num)
    rw [key]
    exact ⟨rfl, rfl, rfl, h⟩
  · have hacc : ¬ ((evaluate_answer (fun _ => Except.error e) (current_q_data s).question p
        ((current_q_data s).rubric.getD "")).score < 3 ∧ s.retry_attempt = false) := by
      rw [hr] ; simp
    obtain ⟨ha1, ha2, -, -⟩ :=
      processInput_accept_fields s p (fun _ => Except.error e) h hacc
    refine ⟨ha1, ?_⟩
    rw [ha2, hsent]

/-- Session used by the C5 witness (a retry is already pending). -/
def s5_session : Session :=
  { stage := Stage.interviewing, q_index := 1, results := [⟨"q1", "a1", ⟨4, "good"⟩⟩],
    retry_attempt := true, interview_questions := [qA, qB, qC], messages := [], report := none }

/-- Witness for C5: a transport failure produces the sentinel and is accepted
as a low-scoring answer when the retry was already used. -/
theorem evaluator_failure_sentinel_witness :
    s5_session.stage = Stage.interviewing ∧ s5_session.retry_attempt = true ∧
    evaluate_answer (fun _ => Except.error "timeout") "qq" "aa" "rr" =
      { score := 0, justification := "Error during evaluation. Details: " ++ "timeout" } ∧
    ((processInput s5_session "my answer" (fun _ => Except.error "timeout")).q_index = s5_session.q_index + 1 ∧
     (processInput s5_session "my answer" (fun _ => Except.error "timeout")).results =
       s5_session.results ++ [⟨(current_q_data s5_session).question, "my answer",
         ⟨0, "Error during evaluation. Details: " ++ "timeout"⟩⟩]) :=
  ⟨rfl, rfl,
    (evaluator_failure_sentinel "timeout" "qq" "aa" "rr" "j" "p" [] s5_session rfl).1,
    (evaluator_failure_sentinel "timeout" "qq" "aa" "rr" "j" "my answer" [] s5_session rfl).2.2.2 rfl⟩

end AIInterviewer
namespace AIInterviewer

/-- Threshold value for a 3-question interview. -/
theorem seventy_five_percent_mark_three : seventy_five_percent_mark 3 = 3 := by
  unfold seventy_five_percent_mark
  rw [Nat.ceil_eq_iff (by norm_num)]
  norm_num

/-- Threshold value for a 4-question interview. -/
theorem seventy_five_percent_mark_four : seventy_five_percent_mark 4 = 3 := by
  unfold seventy_five_percent_mark
  rw [Nat.ceil_eq_iff (by norm_num)]
  norm_num

/-- Stage decision of the acceptance branch: after an accepted answer the
session is Finished exactly when the early-stop test passes on the PRIOR
average (the one computed at the top of the script run, before this result
was appended) or the question list is exhausted. -/
theorem processInput_accept_stage (s : Session) (p : String)
    (o : String → Except String EvaluationResult)
    (h : s.stage = Stage.interviewing)
    (hacc : ¬ ((evaluate_answer o (current_q_data s).question p ((current_q_data s).rubric.getD "")).score < 3 ∧
      s.retry_attempt = false)) :
    ((processInput s p o).stage = Stage.finished ↔
      ((seventy_five_percent_mark s.interview_questions.length ≤ s.q_index + 1 ∧
          0 < average_score s.results ∧ average_score s.results < 3) ∨
        s.interview_questions.length ≤ s.q_index + 1)) := by
  simp only [processInput, h]
  rw [if_neg hacc]
  split
  · rename_i h1
    exact ⟨fun _ => Or.inl h1, fun _ => rfl⟩
  · rename_i h1
    split
    · rename_i h2
      constructor
      · intro hfin
        simp [h] at hfin
      · rintro (h3 | h3)
        · exact absurd h3 h1
        · omega
    · rename_i h2
      exact ⟨fun _ => Or.inr (by omega), fun _ => rfl⟩

end AIInterviewer
namespace AIInterviewer

/-- C1 (amended): immediately after an accepted answer the session is
Finished iff the early-stop test passes with the average over the results
recorded BEFORE this acceptance (strictly between 0 and 3.0, with the index
threshold), or the sampled questions are exhausted (natural completion). -/
theorem early_stop_decision (s : Session) (p : String)
    (o : String → Except String EvaluationResult)
    (h : s.stage = Stage.interviewing)
    (hacc : ¬ ((evaluate_answer o (current_q_data s).question p ((current_q_data s).rubric.getD "")).score < 3 ∧
      s.retry_attempt = false)) :
    ((processInput s p o).stage = Stage.finished ↔
      ((seventy_five_percent_mark s.interview_questions.length ≤ s.q_index + 1 ∧
          0 < average_score s.results ∧ average_score s.results < 3) ∨
        s.interview_questions.length ≤ s.q_index + 1)) ∧
    (processInput s p o).q_index = s.q_index + 1 ∧
    (processInput s p o).results = s.results ++ [⟨(current_q_data s).question, p,
      evaluate_answer o (current_q_data s).question p ((current_q_data s).rubric.getD "")⟩] :=
  ⟨processInput_accept_stage s p o h hacc,
    (processInput_accept_fields s p o h hacc).1,
    (processInput_accept_fields s p o h hacc).2.1⟩

/-- Session refuting C1 as stated: 4 questions, two accepted answers of
score 3 each, retry already used on the current question. -/
def c1_session : Session :=
  { stage := Stage.interviewing, q_index := 2,
    results := [⟨"q1", "a1", ⟨3, "fine"⟩⟩, ⟨"q2", "a2", ⟨3, "fine"⟩⟩],
    retry_attempt := true, interview_questions := [qA, qB, qC, qD],
    messages := [], report := none }

/-- Counterexample to C1 as stated: after the third answer (score 1) is
accepted, `q_index = 3 ≥ ceil(0.75*4) = 3` and the average INCLUDING the
just-accepted result is `7/3 ∈ (0, 3)`, yet the session does not transition
to Finished — the code tested the average computed before the acceptance
(3.0, not < 3.0) and asked the fourth question instead. -/
theorem early_stop_claim_counterexample :
    (processInput c1_session "third answer" (fun _ => Except.ok ⟨1, "poor"⟩)).q_index = 3 ∧
    (processInput c1_session "third answer" (fun _ => Except.ok ⟨1, "poor"⟩)).results.length = 3 ∧
    seventy_five_percent_mark c1_session.interview_questions.length ≤
      (processInput c1_session "third answer" (fun _ => Except.ok ⟨1, "poor"⟩)).q_index ∧
    0 < average_score (processInput c1_session "third answer" (fun _ => Except.ok ⟨1, "poor"⟩)).results ∧
    average_score (processInput c1_session "third answer" (fun _ => Except.ok ⟨1, "poor"⟩)).results < 3 ∧
    (processInput c1_session "third answer" (fun _ => Except.ok ⟨1, "poor"⟩)).stage ≠ Stage.finished := by
  have hacc : ¬ ((evaluate_answer (fun _ => Except.ok ⟨1, "poor"⟩) (current_q_data c1_session).question
      "third answer" ((current_q_data c1_session).rubric.getD "")).score < 3 ∧
      c1_session.retry_attempt = false) := by decide
  have hev : evaluate_answer (fun _ => Except.ok ⟨1, "poor"⟩) (current_q_data c1_session).question
      "third answer" ((current_q_data c1_session).rubric.getD "") = ⟨1, "poor"⟩ := rfl
  obtain ⟨ha1, ha2, -, -⟩ :=
    processInput_accept_fields c1_session "third answer" (fun _ => Except.ok ⟨1, "poor"⟩) rfl hacc
  have havg_old : average_score c1_session.results = 3 := by
    norm_num [average_score, c1_session]
  have hmark : seventy_five_percent_mark c1_session.interview_questions.length = 3 := by
    have : c1_session.interview_questions.length = 4 := rfl
    rw [this]
    exact seventy_five_percent_mark_four
  have havg_new : average_score (processInput c1_session "third answer"
      (fun _ => Except.ok ⟨1, "poor"⟩)).results = 7 / 3 := by
    rw [ha2, hev]
    norm_num [average_score, c1_session]
  refine ⟨by rw [ha1] ; rfl, by rw [ha2] ; rfl, by rw [ha1, hmark] ; decide, ?_, ?_, ?_⟩
  · rw [havg_new] ; norm_num
  · rw [havg_new] ; norm_num
  · intro hfin
    have hiff := processInput_accept_stage c1_session "third answer"
      (fun _ => Except.ok ⟨1, "poor"⟩) rfl hacc
    rcases hiff.mp hfin with ⟨-, -, hlt⟩ | hr
    · rw [havg_old] at hlt
      norm_num at hlt
    · revert hr
      decide

def e1_session : Session :=
  { stage := Stage.interviewing, q_index := 0, results := [], retry_attempt := false,
    interview_questions := [qA, qB], messages := [], report := none }

/-- Witness for the amended C1 at a concrete accepted answer (score 4). -/
theorem early_stop_decision_witness :
    e1_session.stage = Stage.interviewing ∧
    ¬ ((evaluate_answer (fun _ => Except.ok ⟨4, "good"⟩) (current_q_data e1_session).question
        "ans" ((current_q_data e1_session).rubric.getD "")).score < 3 ∧
        e1_session.retry_attempt = false) ∧
    (((processInput e1_session "ans" (fun _ => Except.ok ⟨4, "good"⟩)).stage = Stage.finished ↔
        ((seventy_five_percent_mark e1_session.interview_questions.length ≤ e1_session.q_index + 1 ∧
            0 < average_score e1_session.results ∧ average_score e1_session.results < 3) ∨
          e1_session.interview_questions.length ≤ e1_session.q_index + 1)) ∧
      (processInput e1_session "ans" (fun _ => Except.ok ⟨4, "good"⟩)).q_index = e1_session.q_index + 1 ∧
      (processInput e1_session "ans" (fun _ => Except.ok ⟨4, "good"⟩)).results =
        e1_session.results ++ [⟨(current_q_data e1_session).question, "ans",
          evaluate_answer (fun _ => Except.ok ⟨4, "good"⟩) (current_q_data e1_session).question "ans"
            ((current_q_data e1_session).rubric.getD "")⟩]) :=
  ⟨rfl, by decide,
    early_stop_decision e1_session "ans" (fun _ => Except.ok ⟨4, "good"⟩) rfl (by decide)⟩

end AIInterviewer
namespace AIInterviewer

/-- Counterexample to C4 as stated: a single recorded result whose score is
the failure sentinel 0 gives average 0 with a non-empty results list, so
"average is 0 exactly when results is empty" fails right-to-left. -/
theorem average_zero_claim_counterexample :
    average_score [⟨"q1", "a1", ⟨0, "Error during evaluation. Details: boom"⟩⟩] = 0 ∧
    ([⟨"q1", "a1", ⟨0, "Error during evaluation. Details: boom"⟩⟩] : List TurnRecord) ≠ [] := by
  constructor
  · norm_num [average_score]
  · simp

/-- C4 (amended): the average is 0 when `results` is empty, and on a
non-empty list it is the arithmetic mean of the recorded scores (so it can
be 0 again only when the scores sum to 0, e.g. all sentinel results). -/
theorem average_score_amended (rs : List TurnRecord) (hne : rs ≠ []) :
    average_score rs * (rs.length : ℚ) = (((rs.map fun t => t.evaluation.score).sum : ℤ) : ℚ) ∧
    average_score [] = 0 := by
  constructor
  · have hlen : (rs.length : ℚ) ≠ 0 := by
      simpa using List.length_eq_zero.not.mpr hne
    simp only [average_score, List.isEmpty_eq_true]
    rw [if_neg hne]
    exact div_mul_cancel₀ _ hlen
  · rfl

/-- Witness for the amended C4 on a one-element results list. -/
theorem average_score_amended_witness :
    ([⟨"q1", "a1", ⟨4, "good"⟩⟩] : List TurnRecord) ≠ [] ∧
    (average_score [⟨"q1", "a1", ⟨4, "good"⟩⟩] *
        (([⟨"q1", "a1", ⟨4, "good"⟩⟩] : List TurnRecord).length : ℚ) =
      (((([⟨"q1", "a1", ⟨4, "good"⟩⟩] : List TurnRecord).map fun t => t.evaluation.score).sum : ℤ) : ℚ) ∧
     average_score [] = 0) :=
  ⟨by simp, average_score_amended [⟨"q1", "a1", ⟨4, "good"⟩⟩] (by simp)⟩

end AIInterviewer
namespace AIInterviewer

/-- The state invariant of the session machine: the question pointer stays in
range, every index advance corresponds to exactly one recorded result, the
Interviewing stage always has a current question, and the Welcome stage has
made no progress. -/
def Inv (s : Session) : Prop :=
  s.q_index ≤ s.interview_questions.length ∧
  s.results.length = s.q_index ∧
  (s.stage = Stage.interviewing → s.q_index < s.interview_questions.length) ∧
  (s.stage = Stage.welcome → s.q_index = 0 ∧ s.results = [])

instance (s : Session) : Decidable (Inv s) := by
  unfold Inv
  infer_instance

/-- Stage after an accepted answer is Finished or still Interviewing. -/
theorem processInput_accept_stage_cases (s : Session) (p : String)
    (o : String → Except String EvaluationResult)
    (h : s.stage = Stage.interviewing)
    (hacc : ¬ ((evaluate_answer o (current_q_data s).question p ((current_q_data s).rubric.getD "")).score < 3 ∧
      s.retry_attempt = false)) :
    (processInput s p o).stage = Stage.finished ∨ (processInput s p o).stage = Stage.interviewing := by
  simp only [processInput, h]
  rw [if_neg hacc]
  split
  · left ; rfl
  · split
    · right ; rfl
    · left ; rfl

/-- C3: the invariant holds initially and is preserved by every rerun, and
the question pointer never decreases. -/
theorem session_invariant (s : Session) (input : Option String)
    (o : String → Except String EvaluationResult)
    (g : String → Except String String)
    (hlen : 0 < s.interview_questions.length) (hInv : Inv s) :
    Inv (rerun s input o g) ∧ s.q_index ≤ (rerun s input o g).q_index ∧
    (∀ bank idxs, Inv (init_session bank idxs)) := by
  have hinit : ∀ bank idxs, Inv (init_session bank idxs) := by
    intro bank idxs
    simp [Inv, init_session]
  obtain ⟨h1, h2, h3, h4⟩ := hInv
  by_cases hf : s.stage = Stage.finished
  · cases hr : s.report with
    | none =>
        have heq : rerun s input o g = { s with report := some (generate_final_report g s.results) } := by
          simp [rerun, hf, hr]
        rw [heq]
        exact ⟨⟨h1, h2, h3, h4⟩, le_refl _, hinit⟩
    | some r =>
        have heq : rerun s input o g = s := by
          simp [rerun, hf, hr]
        rw [heq]
        exact ⟨⟨h1, h2, h3, h4⟩, le_refl _, hinit⟩
  · cases input with
    | none =>
        have heq : rerun s none o g = s := by
          simp [rerun, hf]
        rw [heq]
        exact ⟨⟨h1, h2, h3, h4⟩, le_refl _, hinit⟩
    | some p =>
        have heq : rerun s (some p) o g = processInput s p o := by
          simp [rerun, hf]
        rw [heq]
        cases hst : s.stage with
        | finished => exact absurd hst hf
        | welcome =>
            by_cases hc : contains_start p
            · have hpost : processInput s p o =
                  { s with stage := Stage.interviewing
                           messages := s.messages ++ [⟨"user", p⟩,
                             ⟨"assistant", (s.interview_questions.getD 0 default_question).question⟩] } := by
                simp [processInput, hst, hc]
              rw [hpost]
              obtain ⟨hq0, -⟩ := h4 hst
              refine ⟨⟨h1, h2, fun _ => ?_, fun hw => by cases hw⟩, le_refl _, hinit⟩
              simpa [hq0] using hlen
            · have hpost : processInput s p o = { s with messages := s.messages ++ [⟨"user", p⟩] } := by
                simp [processInput, hst, hc]
              rw [hpost]
              exact ⟨⟨h1, h2, h3, h4⟩, le_refl _, hinit⟩
        | interviewing =>
            by_cases hacc : ((evaluate_answer o (current_q_data s).question p
                ((current_q_data s).rubric.getD "")).score < 3 ∧ s.retry_attempt = false)
            · have hpost := processInput_retry_eq s p o hst hacc.2 hacc.1
              rw [hpost]
              refine ⟨⟨h1, h2, fun _ => h3 hst, fun hw => by cases hw.symm.trans hst⟩, le_refl _, hinit⟩
            · obtain ⟨ha1, ha2, -, ha4⟩ := processInput_accept_fields s p o hst hacc
              have hcases := processInput_accept_stage_cases s p o hst hacc
              have hiff := processInput_accept_stage s p o hst hacc
              refine ⟨⟨?_, ?_, ?_, ?_⟩, ?_, hinit⟩
              · rw [ha1, ha4]
                exact h3 hst
              · rw [ha2, ha1]
                simp [h2]
              · intro hint
                rw [ha1, ha4]
                rcases hcases with hfin | -
                · rw [hint] at hfin
                  cases hfin
                · by_contra hge
                  have htot : s.interview_questions.length ≤ s.q_index + 1 := by omega
                  have : (processInput s p o).stage = Stage.finished := hiff.mpr (Or.inr htot)
                  rw [hint] at this
                  cases this
              · intro hw
                rcases hcases with hfin | hint
                · rw [hw] at hfin
                  cases hfin
                · rw [hw] at hint
                  cases hint
              · rw [ha1]
                omega

/-- Session used by the C3 witness. -/
def i3_session : Session :=
  { stage := Stage.interviewing, q_index := 0, results := [], retry_attempt := false,
    interview_questions := [qA, qB], messages := [], report := none }

/-- Witness for C3 at a concrete Interviewing session and accepted answer. -/
theorem session_invariant_witness :
    0 < i3_session.interview_questions.length ∧ Inv i3_session ∧
    (Inv (rerun i3_session (some "my answer") (fun _ => Except.ok ⟨5, "great"⟩) (fun _ => Except.ok "rep")) ∧
     i3_session.q_index ≤ (rerun i3_session (some "my answer") (fun _ => Except.ok ⟨5, "great"⟩) (fun _ => Except.ok "rep")).q_index ∧
     (∀ bank idxs, Inv (init_session bank idxs))) :=
  ⟨by decide, by decide,
    session_invariant i3_session (some "my answer") (fun _ => Except.ok ⟨5, "great"⟩)
      (fun _ => Except.ok "rep") (by decide) (by decide)⟩

end AIInterviewer
namespace AIInterviewer

instance (n k : ℕ) (idxs : List ℕ) : Decidable (SampleSpec n k idxs) := by
  unfold SampleSpec
  infer_instance

/-- When every chosen index is in range, the sample has one entry per index. -/
theorem random_sample_length (l : List QuestionRecord) (idxs : List ℕ)
    (hb : ∀ i ∈ idxs, i < l.length) :
    (random_sample l idxs).length = idxs.length := by
  induction idxs with
  | nil => rfl
  | cons i is ih =>
      have hi : i < l.length := hb i (List.mem_cons_self i is)
      have hrest : ∀ j ∈ is, j < l.length := fun j hj => hb j (List.mem_cons_of_mem i hj)
      simp only [random_sample, List.filterMap_cons, List.get?_eq_get hi, List.length_cons]
      simp only [random_sample] at ih
      rw [ih hrest]

/-- Distinct in-range indices into a duplicate-free list select distinct
entries. -/
theorem random_sample_nodup (l : List QuestionRecord) (idxs : List ℕ)
    (hl : l.Nodup) (hn : idxs.Nodup) (hb : ∀ i ∈ idxs, i < l.length) :
    (random_sample l idxs).Nodup := by
  induction idxs with
  | nil => simp [random_sample]
  | cons i is ih =>
      obtain ⟨hni, hnis⟩ := List.nodup_cons.mp hn
      have hi : i < l.length := hb i (List.mem_cons_self i is)
      have hrest : ∀ j ∈ is, j < l.length := fun j hj => hb j (List.mem_cons_of_mem i hj)
      simp only [random_sample, List.filterMap_cons, List.get?_eq_get hi]
      refine List.nodup_cons.mpr ⟨?_, ih hnis hrest⟩
      intro hmem
      obtain ⟨j, hj, hjeq⟩ := List.mem_filterMap.mp hmem
      have hjlt : j < l.length := hrest j hj
      rw [List.get?_eq_get hjlt] at hjeq
      have hgeteq : l.get ⟨j, hjlt⟩ = l.get ⟨i, hi⟩ := by
        injection hjeq
      have hji : j = i := by
        have := (List.Nodup.get_inj_iff hl).mp hgeteq
        simpa using this
      exact hni (hji ▸ hj)

/-- Size of the sampled question list chosen at session creation. -/
theorem init_session_length (bank : List QuestionRecord) (idxs : List ℕ)
    (hs : INTERVIEW_LENGTH < bank.length → SampleSpec bank.length INTERVIEW_LENGTH idxs) :
    (init_session bank idxs).interview_questions.length = min INTERVIEW_LENGTH bank.length := by
  by_cases hlt : INTERVIEW_LENGTH < bank.length
  · obtain ⟨hlen, -, hb⟩ := hs hlt
    simp only [init_session, if_pos hlt]
    rw [random_sample_length bank idxs hb, hlen]
    exact (Nat.min_eq_left (le_of_lt hlt)).symm
  · simp only [init_session, if_neg hlt]
    exact (Nat.min_eq_right (le_of_not_lt hlt)).symm

/-- Neither a processed input nor a full rerun changes the sampled list. -/
theorem interview_questions_fixed (s : Session) (p : String) (input : Option String)
    (o : String → Except String EvaluationResult)
    (g : String → Except String String) :
    (processInput s p o).interview_questions = s.interview_questions ∧
    (rerun s input o g).interview_questions = s.interview_questions := by
  have hp : ∀ s' : Session, (processInput s' p o).interview_questions = s'.interview_questions := by
    intro s'
    cases hst : s'.stage
    · simp only [processInput, hst]
      split <;> rfl
    · simp only [processInput, hst]
      split
      · rfl
      · split
        · rfl
        · split <;> rfl
    · simp [processInput, hst]
  refine ⟨hp s, ?_⟩
  by_cases hf : s.stage = Stage.finished
  · cases hr : s.report <;> simp [rerun, hf, hr]
  · cases input with
    | none => simp [rerun, hf]
    | some p2 =>
        have heq : rerun s (some p2) o g = processInput s p2 o := by
          simp [rerun, hf]
        rw [heq]
        cases hst : s.stage
        · simp only [processInput, hst]
          split <;> rfl
        · simp only [processInput, hst]
          split
          · rfl
          · split
            · rfl
            · split <;> rfl
        · simp [processInput, hst]

/-- C9: the sampled question list is fixed at session creation, has size
`min(INTERVIEW_LENGTH, bank size)`, and when the bank is strictly larger
than the configured length the sample contains no duplicate question. -/
theorem sampled_questions_spec (bank : List QuestionRecord) (idxs : List ℕ)
    (hs : INTERVIEW_LENGTH < bank.length → SampleSpec bank.length INTERVIEW_LENGTH idxs) :
    (init_session bank idxs).interview_questions.length = min INTERVIEW_LENGTH bank.length ∧
    (INTERVIEW_LENGTH < bank.length → bank.Nodup →
      (init_session bank idxs).interview_questions.Nodup) ∧
    (∀ s p o, (processInput s p o).interview_questions = s.interview_questions) ∧
    (∀ s input o g, (rerun s input o g).interview_questions = s.interview_questions) := by
  refine ⟨init_session_length bank idxs hs, fun hlt hnd => ?_, fun s p o => ?_, fun s input o g => ?_⟩
  · obtain ⟨-, hn, hb⟩ := hs hlt
    simp only [init_session, if_pos hlt]
    exact random_sample_nodup bank idxs hnd hn hb
  · exact (interview_questions_fixed s p none o (fun _ => Except.ok "")).1
  · exact (interview_questions_fixed s "" input o g).2

/-- Witness for C9 with a 4-question bank and sample indices `[2, 0, 3]`. -/
theorem sampled_questions_spec_witness :
    (INTERVIEW_LENGTH < ([qA, qB, qC, qD] : List QuestionRecord).length →
      SampleSpec ([qA, qB, qC, qD] : List QuestionRecord).length INTERVIEW_LENGTH [2, 0, 3]) ∧
    ((init_session [qA, qB, qC, qD] [2, 0, 3]).interview_questions.length =
        min INTERVIEW_LENGTH ([qA, qB, qC, qD] : List QuestionRecord).length ∧
      (INTERVIEW_LENGTH < ([qA, qB, qC, qD] : List QuestionRecord).length →
        ([qA, qB, qC, qD] : List QuestionRecord).Nodup →
        (init_session [qA, qB, qC, qD] [2, 0, 3]).interview_questions.Nodup) ∧
      (∀ s p o, (processInput s p o).interview_questions = s.interview_questions) ∧
      (∀ s input o g, (rerun s input o g).interview_questions = s.interview_questions)) :=
  ⟨fun _ => by decide,
    sampled_questions_spec [qA, qB, qC, qD] [2, 0, 3] (fun _ => by decide)⟩

end AIInterviewer
namespace AIInterviewer

/-- C10: with the shipped `INTERVIEW_LENGTH = 3` and a bank of at least 3
questions the sampled list has exactly 3 questions, the early-stop threshold
`ceil(0.75*3)` equals the total, and so after any Interviewing submission the
session is Finished exactly when all 3 questions have been answered — early
termination can never skip a remaining question, it only changes the closing
message. -/
theorem shipped_config_no_skip (s : Session) (p : String)
    (o : String → Except String EvaluationResult)
    (bank : List QuestionRecord) (idxs : List ℕ)
    (h : s.stage = Stage.interviewing)
    (hq3 : s.interview_questions.length = 3)
    (hlt : s.q_index < 3) :
    seventy_five_percent_mark INTERVIEW_LENGTH = INTERVIEW_LENGTH ∧
    (3 ≤ bank.length → (INTERVIEW_LENGTH < bank.length → SampleSpec bank.length INTERVIEW_LENGTH idxs) →
      (init_session bank idxs).interview_questions.length = 3) ∧
    ((processInput s p o).stage = Stage.finished ↔ (processInput s p o).q_index = 3) := by
  refine ⟨seventy_five_percent_mark_three, fun hb hs => ?_, ?_⟩
  · rw [init_session_length bank idxs hs]
    exact Nat.min_eq_left hb
  · by_cases hacc : ((evaluate_answer o (current_q_data s).question p
        ((current_q_data s).rubric.getD "")).score < 3 ∧ s.retry_attempt = false)
    · have hpost := processInput_retry_eq s p o h hacc.2 hacc.1
      rw [hpost]
      constructor
      · intro hfin
        exact absurd (h.symm.trans hfin) (by simp)
      · intro hq
        have hq' : s.q_index = 3 := hq
        omega
    · have hiff := processInput_accept_stage s p o h hacc
      have ha1 := (processInput_accept_fields s p o h hacc).1
      have hmark : seventy_five_percent_mark s.interview_questions.length = 3 := by
        rw [hq3]
        exact seventy_five_percent_mark_three
      rw [hiff, ha1, hmark, hq3]
      constructor
      · rintro (⟨hle, -⟩ | hle) <;> omega
      · intro heq
        exact Or.inr (by omega)

/-- Session used by the C10 witness: third question pending, two low scores
recorded. -/
def t10_session : Session :=
  { stage := Stage.interviewing, q_index := 2,
    results := [⟨"q1", "a1", ⟨1, "poor"⟩⟩, ⟨"q2", "a2", ⟨1, "poor"⟩⟩],
    retry_attempt := true, interview_questions := [qA, qB, qC],
    messages := [], report := none }

/-- Witness for C10 at a concrete shipped-configuration session. -/
theorem shipped_config_no_skip_witness :
    t10_session.stage = Stage.interviewing ∧
    t10_session.interview_questions.length = 3 ∧ t10_session.q_index < 3 ∧
    (seventy_five_percent_mark INTERVIEW_LENGTH = INTERVIEW_LENGTH ∧
     (3 ≤ ([qA, qB, qC, qD] : List QuestionRecord).length →
       (INTERVIEW_LENGTH < ([qA, qB, qC, qD] : List QuestionRecord).length →
         SampleSpec ([qA, qB, qC, qD] : List QuestionRecord).length INTERVIEW_LENGTH [0, 1, 2]) →
       (init_session [qA, qB, qC, qD] [0, 1, 2]).interview_questions.length = 3) ∧
     ((processInput t10_session "final answer" (fun _ => Except.ok ⟨1, "poor"⟩)).stage = Stage.finished ↔
       (processInput t10_session "final answer" (fun _ => Except.ok ⟨1, "poor"⟩)).q_index = 3)) :=
  ⟨rfl, rfl, by decide,
    shipped_config_no_skip t10_session "final answer" (fun _ => Except.ok ⟨1, "poor"⟩)
      [qA, qB, qC, qD] [0, 1, 2] rfl rfl (by decide)⟩

end AIInterviewer
